import Mathlib

/-!
Verification development for the kartaview-tools repository.

The interpolation kernel is embedded from the design notebook
`src/resources/catmull.ipynb`; the sequencing, interpolation wrapper and
upload-tracking components are modelled from the specification where the
repository snapshot ships only their documentation.
-/

namespace Catmull

/-- Linear interpolation, from `src/resources/catmull.ipynb`.
Returns the interpolated value at time `t`, given the two values `xs` at
times `ts`.  The notebook computes symbolically; division is the field
division of `K` (the degenerate `ts.1 = ts.2` case yields the junk value
`0` where Python would raise `ZeroDivisionError`). -/
def lerp {K : Type} [Field K] (xs ts : K × K) (t : K) : K :=
  (xs.1 * (ts.2 - t) + xs.2 * (t - ts.1)) / (ts.2 - ts.1)

/-- First-stage interpolation `A1 = lerp([p0, p1], [t0, t1], t)` of the notebook. -/
def A1 {K : Type} [Field K] (p0 p1 t0 t1 t : K) : K :=
  lerp (p0, p1) (t0, t1) t

/-- First-stage interpolation `A2 = lerp([p1, p2], [t1, t2], t)` of the notebook. -/
def A2 {K : Type} [Field K] (p1 p2 t1 t2 t : K) : K :=
  lerp (p1, p2) (t1, t2) t

/-- First-stage interpolation `A3 = lerp([p2, p3], [t2, t3], t)` of the notebook. -/
def A3 {K : Type} [Field K] (p2 p3 t2 t3 t : K) : K :=
  lerp (p2, p3) (t2, t3) t

/-- Second-stage interpolation `B1 = lerp([A1, A2], [t0, t2], t)` of the notebook. -/
def B1 {K : Type} [Field K] (p0 p1 p2 t0 t1 t2 t : K) : K :=
  lerp (A1 p0 p1 t0 t1 t, A2 p1 p2 t1 t2 t) (t0, t2) t

/-- Second-stage interpolation `B2 = lerp([A2, A3], [t1, t3], t)` of the notebook. -/
def B2 {K : Type} [Field K] (p1 p2 p3 t1 t2 t3 t : K) : K :=
  lerp (A2 p1 p2 t1 t2 t, A3 p2 p3 t2 t3 t) (t1, t3) t

/-- Final stage `C = lerp([B1, B2], [t1, t2], t)` of the notebook: the
three-stage nested linear interpolation (non-uniform Catmull-Rom). -/
def C {K : Type} [Field K] (p0 p1 p2 p3 t0 t1 t2 t3 t : K) : K :=
  lerp (B1 p0 p1 p2 t0 t1 t2 t, B2 p1 p2 p3 t1 t2 t3 t) (t1, t2) t

/-- Literal translation of the `pycode(C)` output recorded in the notebook
(cell with execution count 31). -/
def pycodeC {K : Type} [Field K] (p0 p1 p2 p3 t0 t1 t2 t3 t : K) : K :=
  ((-t + t2)*((-t + t2)*(p0*(-t + t1) + p1*(t - t0))/(-t0 + t1)
      + (t - t0)*(p1*(-t + t2) + p2*(t - t1))/(-t1 + t2))/(-t0 + t2)
    + (t - t1)*((-t + t3)*(p1*(-t + t2) + p2*(t - t1))/(-t1 + t2)
      + (t - t1)*(p2*(-t + t3) + p3*(t - t2))/(-t2 + t3))/(-t1 + t3))/(-t1 + t2)

/-- Literal translation of the `pycode(C.subs(deltas))` output recorded in the
notebook (cell with execution count 32), with each `delta_i` standing for
`t - t_i` as the notebook's `deltas` mapping defines. -/
def pycodeCsubs {K : Type} [Field K] (p0 p1 p2 p3 t0 t1 t2 t3 t : K) : K :=
  let delta0 := t - t0
  let delta1 := t - t1
  let delta2 := t - t2
  let delta3 := t - t3
  (delta1*(delta1*(delta2*p3 - delta3*p2)/(-t2 + t3)
      - delta3*(delta1*p2 - delta2*p1)/(-t1 + t2))/(-t1 + t3)
    - delta2*(delta0*(delta1*p2 - delta2*p1)/(-t1 + t2)
      - delta2*(delta0*p1 - delta1*p0)/(-t0 + t1))/(-t0 + t2))/(-t1 + t2)

/-- Literal translation of the `pycode(C.diff(t).subs(deltas).simplify())`
output recorded in the notebook (cell with execution count 28), with each
`Delta_i` standing for `t - t_i`. -/
def pycodeCdiff {K : Type} [Field K] (p0 p1 p2 p3 t0 t1 t2 t3 t : K) : K :=
  let D0 := t - t0
  let D1 := t - t1
  let D2 := t - t2
  let D3 := t - t3
  ((t0 - t1)*(t0 - t2)*(-D1*(t1 - t2)*(D2*p3 - D3*p2)
      + D1*((t1 - t2)*(D1*(p2 - p3) - D2*p3 + D3*p2)
        + (t2 - t3)*(D1*p2 - D2*p1 - D3*(p1 - p2)))
      + D3*(t2 - t3)*(D1*p2 - D2*p1))
    + (t1 - t3)*(t2 - t3)*(D0*(t0 - t1)*(D1*p2 - D2*p1)
      - D2*(t1 - t2)*(D0*p1 - D1*p0)
      - D2*((t0 - t1)*(D0*(p1 - p2) - D1*p2 + D2*p1)
        + (t1 - t2)*(D0*p1 - D1*p0 - D2*(p0 - p1)))))
  /((t0 - t1)*(t0 - t2)*(t1 - t2)^2*(t1 - t3)*(t2 - t3))

end Catmull

namespace KV

/-- Modelled from the spec: the `GeoPoint` record of §3 (timestamp, latitude,
longitude, elevation); the shipped data-model module is not part of the
source snapshot.  Coordinates are exact rationals, the model of the
program's exact-arithmetic semantics. -/
structure GeoPoint where
  timestamp : ℚ
  lat : ℚ
  lon : ℚ
  ele : ℚ
  deriving DecidableEq, Repr

/-- Modelled from the spec: the error taxonomy of §7 (`OutOfRangeError`,
`DegenerateTrackError`, `UnorderedInputError`, `InvalidTransitionError`);
the shipped error classes are not part of the source snapshot. -/
inductive KvError where
  | outOfRange
  | degenerateTrack
  | unorderedInput
  | invalidTransition
  deriving DecidableEq, Repr

/-- Modelled from the spec: interpolation over one four-point window (§4.1);
the shipped interpolator module is not part of the source snapshot.  If any
two consecutive window timestamps are equal it fails with
`DegenerateTrackError`; otherwise it applies the notebook's nested-lerp
spline `C` independently to latitude, longitude and elevation. -/
def interpolateWindow (p0 p1 p2 p3 : GeoPoint) (t : ℚ) : Except KvError GeoPoint :=
  if p0.timestamp = p1.timestamp ∨ p1.timestamp = p2.timestamp ∨ p2.timestamp = p3.timestamp then
    .error .degenerateTrack
  else
    .ok ⟨t,
      Catmull.C p0.lat p1.lat p2.lat p3.lat p0.timestamp p1.timestamp p2.timestamp p3.timestamp t,
      Catmull.C p0.lon p1.lon p2.lon p3.lon p0.timestamp p1.timestamp p2.timestamp p3.timestamp t,
      Catmull.C p0.ele p1.ele p2.ele p3.ele p0.timestamp p1.timestamp p2.timestamp p3.timestamp t⟩

/-- Second element of a list, when present. -/
def second? {α : Type} (l : List α) : Option α :=
  (l.drop 1).head?

/-- Second-to-last element of a list, when present. -/
def secondLast? {α : Type} (l : List α) : Option α :=
  (l.reverse.drop 1).head?

/-- All windows of four consecutive elements of a list, in order. -/
def windows4 {α : Type} : List α → List (α × α × α × α)
  | a :: b :: c :: d :: rest => (a, b, c, d) :: windows4 (b :: c :: d :: rest)
  | _ => []

/-- Modelled from the spec: `interpolate(track, t)` of §4.1; the shipped
interpolator module is not part of the source snapshot.  For a track of at
least 4 points the supported interior is `[track[1].timestamp,
track[len-2].timestamp]`; the four-point window whose two middle timestamps
bracket `t` is interpolated with the nested-lerp spline.  A two-point track
falls back to linear interpolation on `[track[0].timestamp,
track[1].timestamp]`.  Outside the supported window, and for tracks of
fewer than 2 or exactly 3 points, it fails with `OutOfRangeError`. -/
def interpolate (track : List GeoPoint) (t : ℚ) : Except KvError GeoPoint :=
  match track with
  | [p, q] =>
    if p.timestamp = q.timestamp then
      .error .degenerateTrack
    else if p.timestamp ≤ t ∧ t ≤ q.timestamp then
      .ok ⟨t,
        Catmull.lerp (p.lat, q.lat) (p.timestamp, q.timestamp) t,
        Catmull.lerp (p.lon, q.lon) (p.timestamp, q.timestamp) t,
        Catmull.lerp (p.ele, q.ele) (p.timestamp, q.timestamp) t⟩
    else .error .outOfRange
  | _ =>
    match second? track, secondLast? track with
    | some p1, some q =>
      if 4 ≤ track.length then
        if p1.timestamp ≤ t ∧ t ≤ q.timestamp then
          match (windows4 track).find? (fun w =>
              decide (w.2.1.timestamp ≤ t) && decide (t ≤ w.2.2.1.timestamp)) with
          | some (a, b, c, d) => interpolateWindow a b c d t
          | none => .error .outOfRange
        else .error .outOfRange
      else .error .outOfRange
    | _, _ => .error .outOfRange

/-- Modelled from the spec: upload outcome states of §3 (`UploadRecord.status`);
the shipped upload-tracking module is not part of the source snapshot. -/
inductive UploadStatus where
  | pending
  | uploaded
  | failed
  deriving DecidableEq, Repr

/-- Modelled from the spec: the persisted `UploadRecord` of §3, keyed by
content fingerprint; the shipped upload-tracking module is not part of the
source snapshot. -/
structure UploadRecord where
  status : UploadStatus
  remoteImageId : Option String
  lastAttemptAt : Option ℚ
  lastError : Option String
  deriving DecidableEq, Repr

/-- In-memory tracker state: a map from content fingerprint to its record. -/
def TrackerState : Type :=
  String → Option UploadRecord

/-- Modelled from the spec: `needsUpload(fingerprint)` of §4.3 — true unless a
record exists with status `uploaded`. -/
def needsUpload (s : TrackerState) (f : String) : Bool :=
  match s f with
  | some r => decide (r.status ≠ UploadStatus.uploaded)
  | none => true

/-- Modelled from the spec: `recordSuccess(fingerprint, remoteImageId)` of
§4.3 — sets status `uploaded`, stores the remote id, clears `lastError`,
refreshes the attempt timestamp. -/
def recordSuccess (s : TrackerState) (f rid : String) (now : ℚ) : TrackerState :=
  fun g => if g = f then some ⟨UploadStatus.uploaded, some rid, some now, none⟩ else s g

/-- Modelled from the spec: `recordFailure(fingerprint, error)` of §4.3 — sets
status `failed` and stores the error, but never downgrades an `uploaded`
record: attempting to do so fails with `InvalidTransitionError`. -/
def recordFailure (s : TrackerState) (f err : String) (now : ℚ) :
    Except KvError TrackerState :=
  match s f with
  | some r =>
    if r.status = UploadStatus.uploaded then
      .error .invalidTransition
    else
      .ok fun g => if g = f then some ⟨UploadStatus.failed, none, some now, some err⟩ else s g
  | none =>
    .ok fun g => if g = f then some ⟨UploadStatus.failed, none, some now, some err⟩ else s g

/-- One Upload State Tracker mutation, as invoked by the orchestrator. -/
inductive TrackerOp where
  | success (f rid : String) (now : ℚ)
  | failure (f err : String) (now : ℚ)

/-- Apply one tracker operation; a rejected `recordFailure` (invalid
transition) surfaces its error to the caller and leaves the state unchanged. -/
def applyOp (s : TrackerState) : TrackerOp → TrackerState
  | .success f rid now => recordSuccess s f rid now
  | .failure f err now =>
    match recordFailure s f err now with
    | .ok s' => s'
    | .error _ => s

/-- Run a sequence of tracker operations from a starting state. -/
def runOps (s : TrackerState) (ops : List TrackerOp) : TrackerState :=
  ops.foldl applyOp s

/-- Modelled from the spec: the `ImageRecord` of §3 as the Sequencer consumes
it — capture timestamp, optional known position, content fingerprint; the
shipped sequencer module is not part of the source snapshot. -/
structure ImageRecord where
  capturedAt : ℚ
  pos : Option (ℚ × ℚ)
  fingerprint : String
  deriving DecidableEq, Repr

/-- Modelled from the spec: the gap thresholds passed to `segment` (§4.2). -/
structure SeqConfig where
  maxTimeGap : ℚ
  maxDistanceGap : ℚ
  deriving DecidableEq, Repr

/-- Modelled from the spec: the gap decision of §4.2 step 2 — for two
consecutive records with known positions, a new sequence starts when the
elapsed time exceeds `maxTimeGap` or the great-circle distance exceeds
`maxDistanceGap`; a record lacking a known position never decides a gap
boundary.  The distance function is a parameter of the model (the shipped
haversine implementation is not part of the source snapshot). -/
def gapSplits (dist : ℚ × ℚ → ℚ × ℚ → ℚ) (cfg : SeqConfig) (a b : ImageRecord) : Bool :=
  match a.pos, b.pos with
  | some pa, some pb =>
    decide (cfg.maxTimeGap < b.capturedAt - a.capturedAt) ||
      decide (cfg.maxDistanceGap < dist pa pb)
  | _, _ => false

/-- Walk the remaining records, closing the current sequence (accumulated in
reverse in `acc`, with `a` its last member) at every gap. -/
def segRun (dist : ℚ × ℚ → ℚ × ℚ → ℚ) (cfg : SeqConfig) :
    List ImageRecord → ImageRecord → List ImageRecord → List (List ImageRecord)
  | [], _, acc => [acc.reverse]
  | b :: rest, a, acc =>
    if gapSplits dist cfg a b then
      acc.reverse :: segRun dist cfg rest b [b]
    else
      segRun dist cfg rest b (b :: acc)

/-- Split a batch into maximal runs whose consecutive members satisfy the gap
thresholds (§4.2 step 2). -/
def segCore (dist : ℚ × ℚ → ℚ × ℚ → ℚ) (cfg : SeqConfig) :
    List ImageRecord → List (List ImageRecord)
  | [] => []
  | r :: rs => segRun dist cfg rs r [r]

/-- A record with no known position. -/
def positionless (r : ImageRecord) : Bool :=
  r.pos.isNone

/-- Modelled from the spec: `segment(records, maxTimeGap, maxDistanceGap)` of
§4.2; the shipped sequencer module is not part of the source snapshot.  A
run of positionless records at the very start or end of the batch becomes
its own sequence (§4.2 step 3); the remaining records are split at every
pair exceeding a gap threshold (§4.2 step 2).  The per-record enrichment
with interpolated position and heading (§4.2 steps 3-4) alters record
fields only, never sequence membership, and is not modelled here. -/
def segment (dist : ℚ × ℚ → ℚ × ℚ → ℚ) (cfg : SeqConfig)
    (rs : List ImageRecord) : List (List ImageRecord) :=
  let lead := rs.takeWhile positionless
  let rest := rs.dropWhile positionless
  let trail := (rest.reverse.takeWhile positionless).reverse
  let mid := (rest.reverse.dropWhile positionless).reverse
  (if lead.isEmpty then [] else [lead]) ++ segCore dist cfg mid ++
    (if trail.isEmpty then [] else [trail])

/-- Count the consecutive pairs of the walk starting at `a` that exceed a gap
threshold; one more than this is the number of sequences produced. -/
def countSplits (dist : ℚ × ℚ → ℚ × ℚ → ℚ) (cfg : SeqConfig) :
    ImageRecord → List ImageRecord → Nat
  | _, [] => 0
  | a, b :: rest =>
    (if gapSplits dist cfg a b then 1 else 0) + countSplits dist cfg b rest

end KV

namespace Catmull

/-- Claim C1: the closed-form interpolation expressions recorded in the
notebook — the raw `pycode(C)` output and the delta-substituted
`pycode(C.subs(deltas))` output — are algebraically equal, for every choice of
`p0, p1, p2, p3` and every `t` with pairwise-distinct timestamps
`t0, t1, t2, t3`, to the three-stage nested linear interpolation `C` built
from `lerp`, each stage weighted by the points' true timestamps. -/
theorem pycode_outputs_eq_nested_lerp (p0 p1 p2 p3 t0 t1 t2 t3 t : ℚ)
    (h01 : t0 ≠ t1) (h02 : t0 ≠ t2) (h03 : t0 ≠ t3)
    (h12 : t1 ≠ t2) (h13 : t1 ≠ t3) (h23 : t2 ≠ t3) :
    pycodeC p0 p1 p2 p3 t0 t1 t2 t3 t = C p0 p1 p2 p3 t0 t1 t2 t3 t ∧
    pycodeCsubs p0 p1 p2 p3 t0 t1 t2 t3 t = C p0 p1 p2 p3 t0 t1 t2 t3 t := by
  have h10 : t1 - t0 ≠ 0 := sub_ne_zero.mpr (Ne.symm h01)
  have h20 : t2 - t0 ≠ 0 := sub_ne_zero.mpr (Ne.symm h02)
  have h21 : t2 - t1 ≠ 0 := sub_ne_zero.mpr (Ne.symm h12)
  have h31 : t3 - t1 ≠ 0 := sub_ne_zero.mpr (Ne.symm h13)
  have h32 : t3 - t2 ≠ 0 := sub_ne_zero.mpr (Ne.symm h23)
  unfold pycodeC pycodeCsubs C B1 B2 A1 A2 A3 lerp
  simp only [neg_add_eq_sub]
  constructor
  · field_simp
    ring
  · field_simp
    ring

/-- Concrete instantiation of `pycode_outputs_eq_nested_lerp`. -/
theorem pycode_outputs_eq_nested_lerp_witness :
    pycodeC 1 2 3 4 0 1 2 3 (1/2 : ℚ) = C 1 2 3 4 0 1 2 3 (1/2 : ℚ) ∧
    pycodeCsubs 1 2 3 4 0 1 2 3 (1/2 : ℚ) = C 1 2 3 4 0 1 2 3 (1/2 : ℚ) :=
  pycode_outputs_eq_nested_lerp 1 2 3 4 0 1 2 3 (1/2)
    (by norm_num) (by norm_num) (by norm_num) (by norm_num) (by norm_num) (by norm_num)

/-- Claim C10: for all values `x_begin, x_end` and times `t_begin ≠ t_end`,
`lerp([x_begin, x_end], [t_begin, t_end], t)` is the affine interpolant
`x_begin + (x_end - x_begin) * (t - t_begin) / (t_end - t_begin)`, so it
returns `x_begin` at `t_begin` and `x_end` at `t_end`; when
`t_begin = t_end` the division has a zero divisor and defines no
interpolant (the embedding's total division then returns the junk value
`0`, where the Python code would raise `ZeroDivisionError`). -/
theorem lerp_affine_endpoints (x0 x1 a b t : ℚ) (hab : a ≠ b) :
    lerp (x0, x1) (a, b) t = x0 + (x1 - x0) * (t - a) / (b - a)
    ∧ lerp (x0, x1) (a, b) a = x0
    ∧ lerp (x0, x1) (a, b) b = x1
    ∧ ∀ y0 y1 c s : ℚ, lerp (y0, y1) (c, c) s = 0 := by
  have hba : b - a ≠ 0 := sub_ne_zero.mpr (Ne.symm hab)
  refine ⟨?_, ?_, ?_, ?_⟩
  · unfold lerp
    field_simp
    ring
  · unfold lerp
    field_simp
  · unfold lerp
    field_simp
  · intro y0 y1 c s
    unfold lerp
    simp

/-- Concrete instantiation of `lerp_affine_endpoints`. -/
theorem lerp_affine_endpoints_witness :
    lerp ((2:ℚ), 6) (0, 4) 1 = 2 + (6 - 2) * (1 - 0) / (4 - 0)
    ∧ lerp ((2:ℚ), 6) (0, 4) 0 = 2
    ∧ lerp ((2:ℚ), 6) (0, 4) 4 = 6
    ∧ ∀ y0 y1 c s : ℚ, lerp (y0, y1) (c, c) s = 0 :=
  lerp_affine_endpoints 2 6 0 4 1 (by norm_num)

/-- Derivative of one `lerp` stage whose endpoint values are themselves
differentiable functions of `t`. -/
theorem lerp_hasDerivAt (f g : ℝ → ℝ) (vf vg a b x : ℝ)
    (hf : HasDerivAt f vf x) (hg : HasDerivAt g vg x) :
    HasDerivAt (fun t => lerp (f t, g t) (a, b) t)
      ((vf * (b - x) + f x * (0 - 1) + (vg * (x - a) + g x * (1 - 0))) / (b - a)) x := by
  have h1 : HasDerivAt (fun t : ℝ => b - t) (0 - 1) x :=
    (hasDerivAt_const x b).sub (hasDerivAt_id x)
  have h2 : HasDerivAt (fun t : ℝ => t - a) (1 - 0) x :=
    (hasDerivAt_id x).sub (hasDerivAt_const x a)
  exact ((hf.mul h1).add (hg.mul h2)).div_const (b - a)

/-- Claim C3: the closed-form derivative expression recorded in the notebook
(the `pycode(C.diff(t).subs(deltas).simplify())` output, with each `Delta_i`
standing for `t - t_i`) is, for every `t` with pairwise-distinct window
timestamps, the analytic derivative of the nested-lerp spline `C` with
respect to `t` — the exact tangent, not a finite-difference approximation. -/
theorem pycode_derivative_is_exact (p0 p1 p2 p3 t0 t1 t2 t3 x : ℝ)
    (h01 : t0 ≠ t1) (h02 : t0 ≠ t2) (h03 : t0 ≠ t3)
    (h12 : t1 ≠ t2) (h13 : t1 ≠ t3) (h23 : t2 ≠ t3) :
    HasDerivAt (fun s => C p0 p1 p2 p3 t0 t1 t2 t3 s)
      (pycodeCdiff p0 p1 p2 p3 t0 t1 t2 t3 x) x := by
  have h10 : t1 - t0 ≠ 0 := sub_ne_zero.mpr (Ne.symm h01)
  have h20 : t2 - t0 ≠ 0 := sub_ne_zero.mpr (Ne.symm h02)
  have h21 : t2 - t1 ≠ 0 := sub_ne_zero.mpr (Ne.symm h12)
  have h31 : t3 - t1 ≠ 0 := sub_ne_zero.mpr (Ne.symm h13)
  have h32 : t3 - t2 ≠ 0 := sub_ne_zero.mpr (Ne.symm h23)
  have h01' : t0 - t1 ≠ 0 := sub_ne_zero.mpr h01
  have h02' : t0 - t2 ≠ 0 := sub_ne_zero.mpr h02
  have h12' : t1 - t2 ≠ 0 := sub_ne_zero.mpr h12
  have h13' : t1 - t3 ≠ 0 := sub_ne_zero.mpr h13
  have h23' : t2 - t3 ≠ 0 := sub_ne_zero.mpr h23
  have hA1 := lerp_hasDerivAt (fun _ => p0) (fun _ => p1) 0 0 t0 t1 x
    (hasDerivAt_const x p0) (hasDerivAt_const x p1)
  have hA2 := lerp_hasDerivAt (fun _ => p1) (fun _ => p2) 0 0 t1 t2 x
    (hasDerivAt_const x p1) (hasDerivAt_const x p2)
  have hA3 := lerp_hasDerivAt (fun _ => p2) (fun _ => p3) 0 0 t2 t3 x
    (hasDerivAt_const x p2) (hasDerivAt_const x p3)
  have hB1 := lerp_hasDerivAt _ _ _ _ t0 t2 x hA1 hA2
  have hB2 := lerp_hasDerivAt _ _ _ _ t1 t3 x hA2 hA3
  have hC := lerp_hasDerivAt _ _ _ _ t1 t2 x hB1 hB2
  unfold C B1 B2 A1 A2 A3
  convert hC using 1
  unfold pycodeCdiff lerp
  field_simp
  ring

/-- Concrete instantiation of `pycode_derivative_is_exact`. -/
theorem pycode_derivative_is_exact_witness :
    HasDerivAt (fun s => C (1:ℝ) 2 3 4 0 1 2 3 s)
      (pycodeCdiff (1:ℝ) 2 3 4 0 1 2 3 (1/2)) (1/2) :=
  pycode_derivative_is_exact 1 2 3 4 0 1 2 3 (1/2)
    (by norm_num) (by norm_num) (by norm_num) (by norm_num) (by norm_num) (by norm_num)

/-- Claim C2: for every four-point window with strictly increasing
timestamps, the nested-lerp spline `C` evaluated exactly at `t1` returns
`p1` and exactly at `t2` returns `p2` (exact rational equality, hence
within the floating tolerance `1e-9`); consequently interpolation of a
window at a known fix's interior timestamp returns that fix's
coordinates. -/
theorem spline_interior_identity (p0 p1 p2 p3 t0 t1 t2 t3 : ℚ)
    (h01 : t0 < t1) (h12 : t1 < t2) (h23 : t2 < t3) :
    C p0 p1 p2 p3 t0 t1 t2 t3 t1 = p1
    ∧ C p0 p1 p2 p3 t0 t1 t2 t3 t2 = p2
    ∧ ∀ g0 g1 g2 g3 : KV.GeoPoint,
        g0.timestamp = t0 → g1.timestamp = t1 → g2.timestamp = t2 → g3.timestamp = t3 →
        KV.interpolateWindow g0 g1 g2 g3 t1 = Except.ok ⟨t1, g1.lat, g1.lon, g1.ele⟩
        ∧ KV.interpolateWindow g0 g1 g2 g3 t2 = Except.ok ⟨t2, g2.lat, g2.lon, g2.ele⟩ := by
  have h10 : t1 - t0 ≠ 0 := sub_ne_zero.mpr (ne_of_lt h01).symm
  have h20 : t2 - t0 ≠ 0 := sub_ne_zero.mpr (ne_of_lt (h01.trans h12)).symm
  have h21 : t2 - t1 ≠ 0 := sub_ne_zero.mpr (ne_of_lt h12).symm
  have h31 : t3 - t1 ≠ 0 := sub_ne_zero.mpr (ne_of_lt (h12.trans h23)).symm
  have h32 : t3 - t2 ≠ 0 := sub_ne_zero.mpr (ne_of_lt h23).symm
  have key : ∀ a b c d : ℚ,
      C a b c d t0 t1 t2 t3 t1 = b ∧ C a b c d t0 t1 t2 t3 t2 = c := by
    intro a b c d
    unfold C B1 B2 A1 A2 A3 lerp
    constructor
    · field_simp
      ring
    · field_simp
      ring
  refine ⟨(key p0 p1 p2 p3).1, (key p0 p1 p2 p3).2, ?_⟩
  intro g0 g1 g2 g3 hg0 hg1 hg2 hg3
  have hne : ¬(t0 = t1 ∨ t1 = t2 ∨ t2 = t3) := by
    push_neg
    exact ⟨ne_of_lt h01, ne_of_lt h12, ne_of_lt h23⟩
  constructor
  · simp only [KV.interpolateWindow, hg0, hg1, hg2, hg3, if_neg hne]
    rw [(key g0.lat g1.lat g2.lat g3.lat).1, (key g0.lon g1.lon g2.lon g3.lon).1,
      (key g0.ele g1.ele g2.ele g3.ele).1]
  · simp only [KV.interpolateWindow, hg0, hg1, hg2, hg3, if_neg hne]
    rw [(key g0.lat g1.lat g2.lat g3.lat).2, (key g0.lon g1.lon g2.lon g3.lon).2,
      (key g0.ele g1.ele g2.ele g3.ele).2]

/-- Concrete instantiation of `spline_interior_identity`. -/
theorem spline_interior_identity_witness :
    C (1:ℚ) 2 3 4 0 1 2 3 1 = 2
    ∧ KV.interpolateWindow ⟨0, 1, 5, 9⟩ ⟨1, 2, 6, 10⟩ ⟨2, 3, 7, 11⟩ ⟨3, 4, 8, 12⟩ 1
      = Except.ok ⟨1, 2, 6, 10⟩ := by
  have h := spline_interior_identity 1 2 3 4 0 1 2 3 (by norm_num) (by norm_num) (by norm_num)
  exact ⟨h.1, (h.2.2 ⟨0, 1, 5, 9⟩ ⟨1, 2, 6, 10⟩ ⟨2, 3, 7, 11⟩ ⟨3, 4, 8, 12⟩ rfl rfl rfl rfl).1⟩

end Catmull

namespace KV

/-- Claim C4: for every four-point interpolation window in which two
consecutive timestamps are equal, interpolation fails with
`DegenerateTrackError` (never yielding a value computed through a zero
divisor); under the strict-increase precondition the division-by-zero
branch is unreachable and the window interpolates normally. -/
theorem interpolateWindow_degenerate_guard (p0 p1 p2 p3 : GeoPoint) (t : ℚ) :
    (p0.timestamp = p1.timestamp ∨ p1.timestamp = p2.timestamp ∨
        p2.timestamp = p3.timestamp →
      interpolateWindow p0 p1 p2 p3 t = Except.error KvError.degenerateTrack)
    ∧ (p0.timestamp < p1.timestamp → p1.timestamp < p2.timestamp →
        p2.timestamp < p3.timestamp →
      interpolateWindow p0 p1 p2 p3 t = Except.ok ⟨t,
        Catmull.C p0.lat p1.lat p2.lat p3.lat
          p0.timestamp p1.timestamp p2.timestamp p3.timestamp t,
        Catmull.C p0.lon p1.lon p2.lon p3.lon
          p0.timestamp p1.timestamp p2.timestamp p3.timestamp t,
        Catmull.C p0.ele p1.ele p2.ele p3.ele
          p0.timestamp p1.timestamp p2.timestamp p3.timestamp t⟩) := by
  constructor
  · intro h
    simp only [interpolateWindow, if_pos h]
  · intro h1 h2 h3
    have hne : ¬(p0.timestamp = p1.timestamp ∨ p1.timestamp = p2.timestamp ∨
        p2.timestamp = p3.timestamp) := by
      push_neg
      exact ⟨ne_of_lt h1, ne_of_lt h2, ne_of_lt h3⟩
    simp only [interpolateWindow, if_neg hne]

/-- Concrete instantiation of `interpolateWindow_degenerate_guard`. -/
theorem interpolateWindow_degenerate_guard_witness :
    interpolateWindow ⟨1, 0, 0, 0⟩ ⟨1, 1, 1, 1⟩ ⟨2, 2, 2, 2⟩ ⟨3, 3, 3, 3⟩ (3/2)
      = Except.error KvError.degenerateTrack
    ∧ interpolateWindow ⟨0, 0, 0, 0⟩ ⟨1, 1, 1, 1⟩ ⟨2, 2, 2, 2⟩ ⟨3, 3, 3, 3⟩ (3/2)
      = Except.ok ⟨3/2, Catmull.C 0 1 2 3 0 1 2 3 (3/2),
          Catmull.C 0 1 2 3 0 1 2 3 (3/2), Catmull.C 0 1 2 3 0 1 2 3 (3/2)⟩ :=
  ⟨(interpolateWindow_degenerate_guard ⟨1, 0, 0, 0⟩ ⟨1, 1, 1, 1⟩ ⟨2, 2, 2, 2⟩
      ⟨3, 3, 3, 3⟩ (3/2)).1 (Or.inl rfl),
    (interpolateWindow_degenerate_guard ⟨0, 0, 0, 0⟩ ⟨1, 1, 1, 1⟩ ⟨2, 2, 2, 2⟩
      ⟨3, 3, 3, 3⟩ (3/2)).2 (by norm_num) (by norm_num) (by norm_num)⟩

/-- One tracker operation never downgrades an `uploaded` record. -/
theorem applyOp_keeps_uploaded (s : TrackerState) (op : TrackerOp) (f : String)
    (h : ∃ r, s f = some r ∧ r.status = UploadStatus.uploaded) :
    ∃ r, applyOp s op f = some r ∧ r.status = UploadStatus.uploaded := by
  obtain ⟨r, hr, hst⟩ := h
  cases op with
  | success g rid now =>
    by_cases hfg : f = g
    · exact ⟨⟨UploadStatus.uploaded, some rid, some now, none⟩,
        by simp [applyOp, recordSuccess, hfg], rfl⟩
    · exact ⟨r, by simp [applyOp, recordSuccess, hfg, hr], hst⟩
  | failure g err now =>
    by_cases hfg : f = g
    · subst hfg
      exact ⟨r, by simp [applyOp, recordFailure, hr, hst], hst⟩
    · cases hsg : s g with
      | none =>
        exact ⟨r, by simp [applyOp, recordFailure, hsg, hfg, hr], hst⟩
      | some r' =>
        by_cases hru : r'.status = UploadStatus.uploaded
        · exact ⟨r, by simp [applyOp, recordFailure, hsg, hru, hr], hst⟩
        · exact ⟨r, by simp [applyOp, recordFailure, hsg, hru, hfg, hr], hst⟩

/-- No sequence of tracker operations downgrades an `uploaded` record. -/
theorem runOps_keeps_uploaded (ops : List TrackerOp) (s : TrackerState) (f : String)
    (h : ∃ r, s f = some r ∧ r.status = UploadStatus.uploaded) :
    ∃ r, runOps s ops f = some r ∧ r.status = UploadStatus.uploaded := by
  induction ops generalizing s with
  | nil => exact h
  | cons op ops ih => exact ih _ (applyOp_keeps_uploaded s op f h)

/-- Claim C5: once `recordSuccess(f, id)` has executed, `needsUpload(f)` is
false in every state reachable by further tracker operations, a subsequent
`recordFailure(f, e)` fails with `InvalidTransitionError`, and the record's
status remains `uploaded` — an uploaded record is never downgraded. -/
theorem uploaded_is_terminal (s : TrackerState) (ops : List TrackerOp)
    (f rid err : String) (now now' : ℚ) :
    needsUpload (runOps (recordSuccess s f rid now) ops) f = false
    ∧ recordFailure (runOps (recordSuccess s f rid now) ops) f err now'
        = Except.error KvError.invalidTransition
    ∧ ∃ r, (runOps (recordSuccess s f rid now) ops) f = some r
        ∧ r.status = UploadStatus.uploaded := by
  have h0 : ∃ r, (recordSuccess s f rid now) f = some r
      ∧ r.status = UploadStatus.uploaded :=
    ⟨⟨UploadStatus.uploaded, some rid, some now, none⟩, by simp [recordSuccess], rfl⟩
  obtain ⟨r, hr, hst⟩ := runOps_keeps_uploaded ops _ f h0
  refine ⟨?_, ?_, ⟨r, hr, hst⟩⟩
  · simp [needsUpload, hr, hst]
  · simp [recordFailure, hr, hst]

/-- Claim C6 (amended): for every track of at least 4 GeoPoints, every `t`
outside the supported interior window `[track[1].timestamp,
track[len-2].timestamp]` makes `interpolate` fail with `OutOfRangeError`;
for a two-point track (with distinct timestamps, the track invariant) the
supported window of the linear fallback is `[track[0].timestamp,
track[1].timestamp]` and `t` outside it likewise fails with
`OutOfRangeError`.  No extrapolated value is ever returned. -/
theorem interpolate_boundary_refusal (track : List GeoPoint) (t : ℚ) :
    (∀ p1 q, second? track = some p1 → secondLast? track = some q →
      4 ≤ track.length → ¬(p1.timestamp ≤ t ∧ t ≤ q.timestamp) →
      interpolate track t = Except.error KvError.outOfRange)
    ∧ ∀ p q : GeoPoint, p.timestamp ≠ q.timestamp →
      ¬(p.timestamp ≤ t ∧ t ≤ q.timestamp) →
      interpolate [p, q] t = Except.error KvError.outOfRange := by
  constructor
  · intro p1 q hp1 hq hlen hout
    rcases track with _ | ⟨a, _ | ⟨b, _ | ⟨c, _ | ⟨d, rest⟩⟩⟩⟩ <;>
      simp only [List.length] at hlen <;> try omega
    simp only [second?, List.drop_succ_cons, List.drop_zero, List.head?_cons,
      Option.some.injEq] at hp1
    subst hp1
    simp only [interpolate, hq, second?, List.drop_succ_cons, List.drop_zero,
      List.head?_cons, if_pos hlen, if_neg hout]
    exact ite_self _
  · intro p q hpq hout
    simp only [interpolate, if_neg hpq, if_neg hout]

/-- Concrete instantiation of `interpolate_boundary_refusal`. -/
theorem interpolate_boundary_refusal_witness :
    interpolate [⟨0, 0, 0, 0⟩, ⟨1, 0, 0, 0⟩, ⟨2, 0, 0, 0⟩, ⟨3, 0, 0, 0⟩] 10
      = Except.error KvError.outOfRange :=
  (interpolate_boundary_refusal [⟨0, 0, 0, 0⟩, ⟨1, 0, 0, 0⟩, ⟨2, 0, 0, 0⟩, ⟨3, 0, 0, 0⟩]
      10).1 ⟨1, 0, 0, 0⟩ ⟨2, 0, 0, 0⟩ rfl rfl (by norm_num) (by norm_num)

/-- Counterexample to claim C6 as stated: on a two-point track the claimed
interior window `[track[1].timestamp, track[len-2].timestamp]` degenerates
to `[track[1].timestamp, track[0].timestamp]`; `t = 5` lies outside that
window, yet `interpolate` performs the spec's two-point linear fallback and
returns a value instead of `OutOfRangeError`. -/
theorem interpolate_boundary_claim_counterexample :
    ([⟨0, 0, 0, 0⟩, ⟨10, 1, 1, 0⟩] : List GeoPoint).length = 2
    ∧ second? ([⟨0, 0, 0, 0⟩, ⟨10, 1, 1, 0⟩] : List GeoPoint) = some ⟨10, 1, 1, 0⟩
    ∧ secondLast? ([⟨0, 0, 0, 0⟩, ⟨10, 1, 1, 0⟩] : List GeoPoint) = some ⟨0, 0, 0, 0⟩
    ∧ ¬((10:ℚ) ≤ 5 ∧ (5:ℚ) ≤ 0)
    ∧ interpolate [⟨0, 0, 0, 0⟩, ⟨10, 1, 1, 0⟩] 5 = Except.ok ⟨5, 1/2, 1/2, 0⟩
    ∧ interpolate [⟨0, 0, 0, 0⟩, ⟨10, 1, 1, 0⟩] 5 ≠ Except.error KvError.outOfRange := by
  have hok : interpolate [⟨0, 0, 0, 0⟩, ⟨10, 1, 1, 0⟩] 5
      = Except.ok ⟨5, 1/2, 1/2, 0⟩ := by
    have hne : ¬(((⟨0, 0, 0, 0⟩ : GeoPoint)).timestamp
        = ((⟨10, 1, 1, 0⟩ : GeoPoint)).timestamp) := by
      norm_num
    have hin : ((⟨0, 0, 0, 0⟩ : GeoPoint)).timestamp ≤ 5
        ∧ (5:ℚ) ≤ ((⟨10, 1, 1, 0⟩ : GeoPoint)).timestamp := by
      norm_num
    simp only [interpolate, if_neg hne, if_pos hin, Catmull.lerp]
    norm_num
  refine ⟨rfl, rfl, rfl, by norm_num, hok, ?_⟩
  rw [hok]
  exact fun h => Except.noConfusion h

/-- The segmenter walk produces one more sequence than it sees
threshold-exceeding consecutive pairs. -/
theorem segRun_length (dist : ℚ × ℚ → ℚ × ℚ → ℚ) (cfg : SeqConfig)
    (rest : List ImageRecord) (a : ImageRecord) (acc : List ImageRecord) :
    (segRun dist cfg rest a acc).length = 1 + countSplits dist cfg a rest := by
  induction rest generalizing a acc with
  | nil => simp [segRun, countSplits]
  | cons b rest ih =>
    by_cases h : gapSplits dist cfg a b
    · simp [segRun, countSplits, h, ih]
      omega
    · simp [segRun, countSplits, h, ih]

/-- A pair that exceeds the larger thresholds also exceeds the smaller ones. -/
theorem gapSplits_mono (dist : ℚ × ℚ → ℚ × ℚ → ℚ) (cfg cfg' : SeqConfig)
    (hT : cfg.maxTimeGap ≤ cfg'.maxTimeGap)
    (hD : cfg.maxDistanceGap ≤ cfg'.maxDistanceGap) (a b : ImageRecord)
    (h : gapSplits dist cfg' a b = true) : gapSplits dist cfg a b = true := by
  unfold gapSplits at h ⊢
  rcases ha : a.pos with _ | pa <;> rcases hb : b.pos with _ | pb <;>
    simp [ha, hb] at h ⊢
  rcases h with h | h
  · exact Or.inl (lt_of_le_of_lt hT h)
  · exact Or.inr (lt_of_le_of_lt hD h)

/-- Larger thresholds never see more threshold-exceeding pairs. -/
theorem countSplits_mono (dist : ℚ × ℚ → ℚ × ℚ → ℚ) (cfg cfg' : SeqConfig)
    (h : ∀ a b, gapSplits dist cfg' a b = true → gapSplits dist cfg a b = true)
    (a : ImageRecord) (rest : List ImageRecord) :
    countSplits dist cfg' a rest ≤ countSplits dist cfg a rest := by
  induction rest generalizing a with
  | nil => simp [countSplits]
  | cons b rest ih =>
    simp only [countSplits]
    have hb2 := ih b
    by_cases hb : gapSplits dist cfg' a b
    · rw [if_pos hb, if_pos (h a b hb)]
      omega
    · rw [if_neg hb]
      cases hc : gapSplits dist cfg a b <;> simp [hc] <;> omega

/-- Claim C7: for every strictly time-ordered batch, increasing `maxTimeGap`
or `maxDistanceGap` (the other held fixed, or both increased) never
increases the number of sequences `segment` produces: more permissive
thresholds merge or preserve sequences, never split them. -/
theorem segment_gap_monotonicity (dist : ℚ × ℚ → ℚ × ℚ → ℚ) (cfg cfg' : SeqConfig)
    (rs : List ImageRecord)
    (hord : rs.Chain' (fun a b => a.capturedAt < b.capturedAt))
    (hT : cfg.maxTimeGap ≤ cfg'.maxTimeGap)
    (hD : cfg.maxDistanceGap ≤ cfg'.maxDistanceGap) :
    (segment dist cfg' rs).length ≤ (segment dist cfg rs).length := by
  have hmono := gapSplits_mono dist cfg cfg' hT hD
  unfold segment
  simp only [List.length_append]
  have hcore : ∀ l : List ImageRecord,
      (segCore dist cfg' l).length ≤ (segCore dist cfg l).length := by
    intro l
    cases l with
    | nil => simp [segCore]
    | cons r l =>
      simp only [segCore, segRun_length]
      have := countSplits_mono dist cfg cfg' hmono r l
      omega
  have := hcore ((rs.dropWhile positionless).reverse.dropWhile positionless).reverse
  omega

/-- Concrete instantiation of `segment_gap_monotonicity`. -/
theorem segment_gap_monotonicity_witness :
    (segment (fun _ _ => 0) ⟨120, 1⟩
        [⟨0, some (0, 0), "a"⟩, ⟨100, some (0, 0), "b"⟩]).length
      ≤ (segment (fun _ _ => 0) ⟨60, 1⟩
        [⟨0, some (0, 0), "a"⟩, ⟨100, some (0, 0), "b"⟩]).length :=
  segment_gap_monotonicity (fun _ _ => 0) ⟨60, 1⟩ ⟨120, 1⟩
    [⟨0, some (0, 0), "a"⟩, ⟨100, some (0, 0), "b"⟩]
    (by simp [List.chain'_cons]) (by norm_num) (by norm_num)

/-- Claim C8: `segment` is deterministic — it is a pure function of the
distance function, the thresholds and the input batch, with no dependence
on randomness or wall-clock time, so any two calls on identical inputs
produce identical output. -/
theorem segment_deterministic (dist dist' : ℚ × ℚ → ℚ × ℚ → ℚ) (cfg cfg' : SeqConfig)
    (rs rs' : List ImageRecord)
    (hdist : dist = dist') (hcfg : cfg = cfg') (hrs : rs = rs') :
    segment dist cfg rs = segment dist' cfg' rs' := by
  subst hdist hcfg hrs
  rfl

/-- Concrete instantiation of `segment_deterministic`. -/
theorem segment_deterministic_witness :
    segment (fun _ _ => 0) ⟨60, 1⟩ [⟨0, some (0, 0), "a"⟩]
      = segment (fun _ _ => 0) ⟨60, 1⟩ [⟨0, some (0, 0), "a"⟩] :=
  segment_deterministic (fun _ _ => 0) (fun _ _ => 0) ⟨60, 1⟩ ⟨60, 1⟩
    [⟨0, some (0, 0), "a"⟩] [⟨0, some (0, 0), "a"⟩] rfl rfl rfl

/-- Claim C9: a batch of five positioned records captured at 0, 10, 20, 500
and 510 seconds, with `maxTimeGap = 60` seconds and no consecutive pair
exceeding the distance threshold, is segmented into exactly two sequences:
the records at times 0, 10, 20 and the records at times 500, 510, each in
input order. -/
theorem segment_scenario_five_records (dist : ℚ × ℚ → ℚ × ℚ → ℚ) (cfg : SeqConfig)
    (q0 q1 q2 q3 q4 : ℚ × ℚ) (f0 f1 f2 f3 f4 : String)
    (hT : cfg.maxTimeGap = 60)
    (hd01 : dist q0 q1 ≤ cfg.maxDistanceGap) (hd12 : dist q1 q2 ≤ cfg.maxDistanceGap)
    (hd23 : dist q2 q3 ≤ cfg.maxDistanceGap) (hd34 : dist q3 q4 ≤ cfg.maxDistanceGap) :
    segment dist cfg [⟨0, some q0, f0⟩, ⟨10, some q1, f1⟩, ⟨20, some q2, f2⟩,
        ⟨500, some q3, f3⟩, ⟨510, some q4, f4⟩]
      = [[⟨0, some q0, f0⟩, ⟨10, some q1, f1⟩, ⟨20, some q2, f2⟩],
         [⟨500, some q3, f3⟩, ⟨510, some q4, f4⟩]] := by
  have g01 : gapSplits dist cfg ⟨0, some q0, f0⟩ ⟨10, some q1, f1⟩ = false := by
    show (decide (cfg.maxTimeGap < 10 - 0)
      || decide (cfg.maxDistanceGap < dist q0 q1)) = false
    rw [Bool.or_eq_false_iff, decide_eq_false_iff_not, decide_eq_false_iff_not]
    exact ⟨by rw [hT]; norm_num, not_lt.mpr hd01⟩
  have g12 : gapSplits dist cfg ⟨10, some q1, f1⟩ ⟨20, some q2, f2⟩ = false := by
    show (decide (cfg.maxTimeGap < 20 - 10)
      || decide (cfg.maxDistanceGap < dist q1 q2)) = false
    rw [Bool.or_eq_false_iff, decide_eq_false_iff_not, decide_eq_false_iff_not]
    exact ⟨by rw [hT]; norm_num, not_lt.mpr hd12⟩
  have g23 : gapSplits dist cfg ⟨20, some q2, f2⟩ ⟨500, some q3, f3⟩ = true := by
    show (decide (cfg.maxTimeGap < 500 - 20)
      || decide (cfg.maxDistanceGap < dist q2 q3)) = true
    rw [Bool.or_eq_true]
    exact Or.inl (decide_eq_true (by rw [hT]; norm_num))
  have g34 : gapSplits dist cfg ⟨500, some q3, f3⟩ ⟨510, some q4, f4⟩ = false := by
    show (decide (cfg.maxTimeGap < 510 - 500)
      || decide (cfg.maxDistanceGap < dist q3 q4)) = false
    rw [Bool.or_eq_false_iff, decide_eq_false_iff_not, decide_eq_false_iff_not]
    exact ⟨by rw [hT]; norm_num, not_lt.mpr hd34⟩
  simp [segment, segCore, segRun, positionless, g01, g12, g23, g34]

/-- Concrete instantiation of `segment_scenario_five_records`. -/
theorem segment_scenario_five_records_witness :
    segment (fun _ _ => 0) ⟨60, 1⟩ [⟨0, some (0, 0), "a"⟩, ⟨10, some (0, 0), "b"⟩,
        ⟨20, some (0, 0), "c"⟩, ⟨500, some (0, 0), "d"⟩, ⟨510, some (0, 0), "e"⟩]
      = [[⟨0, some (0, 0), "a"⟩, ⟨10, some (0, 0), "b"⟩, ⟨20, some (0, 0), "c"⟩],
         [⟨500, some (0, 0), "d"⟩, ⟨510, some (0, 0), "e"⟩]] :=
  segment_scenario_five_records (fun _ _ => 0) ⟨60, 1⟩ (0, 0) (0, 0) (0, 0) (0, 0) (0, 0)
    "a" "b" "c" "d" "e" rfl (by norm_num) (by norm_num) (by norm_num) (by norm_num)

end KV
